import Mathlib

/-!
# Verification of the ViictorN 3-IN-1 multistream dashboard core

Shallow embedding of the layout/visibility/order reconciliation engine of the
repository (src/App.tsx, src/components/MultiChat.tsx, src/constants.tsx,
src/types.ts), together with proofs about it.

Conventions of the embedding:
* React `useState`/`useRef` cells become explicit state records passed to and
  returned from the handler functions.
* Values captured from the component closure (e.g. `layoutMode`,
  `expandedStreamerId`, `isMobile` inside `getGridClasses`) become explicit
  leading parameters of the corresponding Lean function.
* JavaScript arrays become `List`; `Array.prototype.splice(i, 1)` is
  `List.eraseIdx i` and `splice(j, 0, x)` is `List.insertIdx j x`;
  `Array.prototype.indexOf` with the `-1` check is `List.findIdx?`;
  index arithmetic that can go negative in JS (`currentIndex - 1`) is `Int`.
* `null` becomes `none`; TypeScript `Partial<T>` becomes a record of `Option`s
  merged with `Option.getD` (the semantics of the object spread
  `{ ...prev, ...newSettings }`).
-/

/-- `Platform` enum from src/types.ts. -/
inductive Platform
  | Twitch
  | YouTube
  | Kick
deriving DecidableEq

/-- `StreamerConfig` from src/types.ts.  The partial platform → channel map is a
function into `Option String`. -/
structure StreamerConfig where
  id : String
  name : String
  avatarUrl : String
  channels : Platform → Option String
  defaultPlatform : Platform
  color : String

/-- The static `STREAMERS` catalog from src/constants.tsx. -/
def STREAMERS : List StreamerConfig :=
  [ { id := "gabepeixe"
      name := "Gabepeixe"
      avatarUrl := "https://picsum.photos/100/100?random=2"
      channels := fun p => match p with
        | Platform.Twitch => some "gaules"
        | Platform.Kick => some "gabepeixe"
        | Platform.YouTube => some "Gabepeixe"
      defaultPlatform := Platform.Twitch
      color := "#9146FF" },
    { id := "coringa"
      name := "Coringa"
      avatarUrl := "https://picsum.photos/100/100?random=1"
      channels := fun p => match p with
        | Platform.Twitch => some "loud_coringa"
        | Platform.YouTube => some "LOUD Coringa"
        | Platform.Kick => some "coringa"
      defaultPlatform := Platform.Twitch
      color := "#FF0000" },
    { id := "brabox"
      name := "Brabox"
      avatarUrl := "https://picsum.photos/100/100?random=3"
      channels := fun p => match p with
        | Platform.Twitch => some "loud_brabox"
        | Platform.Kick => some "brabox"
        | Platform.YouTube => some "LOUDBrabox"
      defaultPlatform := Platform.Twitch
      color := "#53FC18" } ]

/-- `CUSTOM_MERGED_CHAT_URL` from src/constants.tsx (empty = not configured,
falsy in JS). -/
def CUSTOM_MERGED_CHAT_URL : String := ""

/-- The catalog id list, `STREAMERS.map(s => s.id)` — the initial (and reset)
value of both `visibleStreamers` and `streamerOrder` in src/App.tsx. -/
def CATALOG_IDS : List String := STREAMERS.map (fun s => s.id)

/-- `LayoutMode` from src/App.tsx line 11. -/
inductive LayoutMode
  | columns
  | grid
  | pyramid
deriving DecidableEq

/-- `AppSettings` as initialized in src/App.tsx lines 29-34 (the shape the app
actually uses; `chatWidth` is a JS number of pixels, embedded as `Int`). -/
structure AppSettings where
  performanceMode : Bool
  cinemaMode : Bool
  streamsVisible : Bool
  chatWidth : Int
deriving DecidableEq

/-- TypeScript `Partial<AppSettings>` — each field optionally present. -/
structure PartialAppSettings where
  performanceMode : Option Bool
  cinemaMode : Option Bool
  streamsVisible : Option Bool
  chatWidth : Option Int

/-- The object spread `{ ...prev, ...newSettings }` used in
`handleSettingsUpdate` (src/App.tsx line 154): fields present in the update
override, the rest are kept. -/
def mergeSettings (prev : AppSettings) (ns : PartialAppSettings) : AppSettings :=
  { performanceMode := ns.performanceMode.getD prev.performanceMode
    cinemaMode := ns.cinemaMode.getD prev.cinemaMode
    streamsVisible := ns.streamsVisible.getD prev.streamsVisible
    chatWidth := ns.chatWidth.getD prev.chatWidth }

/-- The chat-related slice of App state: the `isChatOpen` `useState` cell and
the `settings` store. -/
structure ChatState where
  isChatOpen : Bool
  settings : AppSettings
deriving DecidableEq

/-- `handleSettingsUpdate` from src/App.tsx lines 149-155: if the update turns
Cinema Mode ON, force the chat closed; then merge the partial settings. -/
def handleSettingsUpdate (newSettings : PartialAppSettings) (st : ChatState) : ChatState :=
  let st1 := if newSettings.cinemaMode = some true then { st with isChatOpen := false } else st
  { st1 with settings := mergeSettings st1.settings newSettings }

/-- `toggleChat` from src/App.tsx lines 97-106: flip `isChatOpen`; if we are
opening the chat while Cinema Mode is on, disable Cinema Mode. -/
def toggleChat (st : ChatState) : ChatState :=
  let willBeOpen := !st.isChatOpen
  let settings1 :=
    if willBeOpen && st.settings.cinemaMode then
      { st.settings with cinemaMode := false }
    else st.settings
  { isChatOpen := willBeOpen, settings := settings1 }

/-- The body of the render loop over `streamerOrder` in src/App.tsx lines
386-403: look the id up in the catalog (skip if unknown); skip when not
visible unless it is the expanded one (force show); skip when some *other*
slot is expanded; otherwise render the slot, keyed by the streamer id. -/
def renderSlot (visibleStreamers : List String) (expandedStreamerId : Option String)
    (streamerId : String) : Option String :=
  match STREAMERS.find? (fun s => s.id == streamerId) with
  | none => none
  | some streamer =>
    if ¬ (visibleStreamers.contains streamer.id) ∧ expandedStreamerId ≠ some streamer.id then
      none
    else
      let isThisExpanded := expandedStreamerId = some streamer.id
      let isOtherExpanded := expandedStreamerId ≠ none ∧ ¬ isThisExpanded
      if isOtherExpanded then none
      else some streamer.id

/-- The list of slot ids actually rendered by the loop
`streamerOrder.map(...)` in src/App.tsx lines 386-403 (`null` returns become
omitted entries). -/
def renderedSlots (streamerOrder visibleStreamers : List String)
    (expandedStreamerId : Option String) : List String :=
  streamerOrder.filterMap (renderSlot visibleStreamers expandedStreamerId)

/-- `getGridClasses` from src/App.tsx lines 317-339.  `expandedStreamerId`,
`layoutMode` and `isMobile` are in scope in the component closure and are
passed explicitly here; the source body reads only the first two.
`indexInVisible` comes from `indexOf` and can be `-1` in JS, hence `Int`. -/
def getGridClasses (isMobile : Bool) (expandedStreamerId : Option String)
    (layoutMode : LayoutMode) (indexInVisible : Int) (totalVisible : Nat) : String :=
  if expandedStreamerId ≠ none then "flex-1 w-full h-full"
  else if totalVisible = 1 then "flex-1 w-full h-full"
  else if totalVisible = 2 then
    "flex-1 border-b md:border-b-0 md:border-r border-white/5 last:border-0"
  else if totalVisible ≥ 3 then
    if layoutMode = LayoutMode.grid ∨ layoutMode = LayoutMode.pyramid then
      if indexInVisible = 0 then "col-span-2 row-span-1 border-b border-white/5"
      else if indexInVisible = 1 then "col-span-1 row-span-1 border-r border-white/5"
      else "col-span-1 row-span-1"
    else
      "flex-1 relative border-b border-white/5 md:border-b-0 md:border-r border-white/5 last:border-0"
  else "flex-1"

/-- `getContainerGridClass` from src/App.tsx lines 341-349.  As with
`getGridClasses`, the component-closure variables (`layoutMode`,
`expandedStreamerId`, `visibleCount`, `isMobile`) are explicit parameters;
the source body never reads `isMobile`. -/
def getContainerGridClass (isMobile : Bool) (layoutMode : LayoutMode)
    (expandedStreamerId : Option String) (visibleCount : Nat) : String :=
  if layoutMode = LayoutMode.grid ∧ expandedStreamerId = none ∧ visibleCount ≥ 3 then
    "grid grid-cols-2 grid-rows-[60%_40%]"
  else if layoutMode = LayoutMode.pyramid ∧ expandedStreamerId = none ∧ visibleCount ≥ 3 then
    "grid grid-cols-2 grid-rows-2"
  else
    "flex flex-col md:flex-row"

/-- `direction: 'up' | 'down'` of `handleMoveStreamer`. -/
inductive MoveDirection
  | up
  | down
deriving DecidableEq

/-- `handleMoveStreamer` from src/App.tsx lines 160-173: locate the id
(`indexOf` with `-1` guard), compute the target index (JS number arithmetic,
may be `-1`, hence `Int`), bounds-check, then swap the two positions by
destructuring assignment.  The `getD` defaults are never used: both indices
are in bounds when they are read. -/
def handleMoveStreamer (streamerOrder : List String) (id : String)
    (direction : MoveDirection) : List String :=
  match streamerOrder.findIdx? (fun s => s == id) with
  | none => streamerOrder
  | some currentIndex =>
    let targetIndex : Int :=
      if direction = MoveDirection.up then (currentIndex : Int) - 1 else (currentIndex : Int) + 1
    if targetIndex < 0 ∨ (streamerOrder.length : Int) ≤ targetIndex then streamerOrder
    else
      (streamerOrder.set currentIndex (streamerOrder.getD targetIndex.toNat "")).set
        targetIndex.toNat (streamerOrder.getD currentIndex "")

/-- The drag-and-drop state of src/App.tsx lines 42-45 plus the
`streamerOrder` list the drop mutates: `isDragging` (`useState`),
`dragItem` / `dragOverItem` (`useRef`, `number | null`). -/
structure DragState where
  isDragging : Bool
  dragItem : Option Nat
  dragOverItem : Option Nat
  streamerOrder : List String
deriving DecidableEq

/-- `onDragStart` from src/App.tsx lines 176-180. -/
def onDragStart (st : DragState) (position : Nat) : DragState :=
  { st with dragItem := some position, isDragging := true }

/-- `onDragEnter` from src/App.tsx lines 182-185. -/
def onDragEnter (st : DragState) (position : Nat) : DragState :=
  { st with dragOverItem := some position }

/-- `onDrop` from src/App.tsx lines 191-205: when both refs are set and
differ, splice the dragged element out and reinsert it at the hovered index;
in every case clear both refs and the dragging flag.  The `none` arm of the
element lookup is unreachable in the app (drag indices are positions of the
rendered `streamerOrder.map` loop, always in bounds). -/
def onDrop (st : DragState) : DragState :=
  let copyListItems := st.streamerOrder
  let newOrder :=
    match st.dragItem, st.dragOverItem with
    | some i, some j =>
      if i ≠ j then
        match copyListItems[i]? with
        | some dragItemContent => (copyListItems.eraseIdx i).insertIdx j dragItemContent
        | none => copyListItems
      else copyListItems
    | _, _ => copyListItems
  { isDragging := false, dragItem := none, dragOverItem := none, streamerOrder := newOrder }

/-- A cancelled / interrupted drag (browser `dragend` without a drop).
src/App.tsx registers only `onDragStart`, `onDragEnter`, `onDragOver` and
`onDrop`; there is no `onDragEnd` or other cancellation handler anywhere in
the repository, so a cancelled drag runs no code and leaves all state
unchanged. -/
def onDragCancel (st : DragState) : DragState := st

/-- The initial drag state (src/App.tsx lines 43-45: `useState(false)`, refs
`null`) over a given order list. -/
def initialDragState (streamerOrder : List String) : DragState :=
  { isDragging := false, dragItem := none, dragOverItem := none, streamerOrder := streamerOrder }

/-- `onResetOrder` from src/App.tsx line 470:
`setStreamerOrder(STREAMERS.map(s => s.id))`. -/
def resetOrder : List String := STREAMERS.map (fun s => s.id)

/-- Spec-modelled comparison point for the drag-drop claim, following the
spec's words: "remove the source element and reinsert it at the target index
(a list splice)". -/
def spliceRemoveReinsert (l : List String) (i j : Nat) : List String :=
  (l.eraseIdx i).insertIdx j (l.getD i "")

/-- The `resize` mouse-move callback of src/components/MultiChat.tsx lines
31-39, as a function from the current committed `chatWidth` and the requested
`newWidth` (`window.innerWidth - clientX`, an `Int`) to the width committed to
settings: the request is committed only when `300 < w < 800` holds strictly;
otherwise `onResize` is never called and the committed width is unchanged. -/
def resize (isResizing disableResize : Bool) (chatWidth newWidth : Int) : Int :=
  if isResizing ∧ ¬ disableResize then
    if 300 < newWidth ∧ newWidth < 800 then newWidth else chatWidth
  else chatWidth

/-- The chat-panel content of src/components/MultiChat.tsx lines 208-263, as
the list of (view key, is-displayed) pairs mounted in the DOM: the MIX view
(`display: flex/none`) followed by one individual view per catalog streamer
(`display: block/none`).  Which entry is *displayed* depends on
`selectedStreamerId`; the mounted set does not. -/
def multiChatViews (selectedStreamerId : String) : List (String × Bool) :=
  ("mix", selectedStreamerId == "all") ::
    STREAMERS.map (fun streamer => ("tab-" ++ streamer.id, selectedStreamerId == streamer.id))

/-- The chat panel as rendered by src/components/MultiChat.tsx: content is
mounted only while `isOpen` (the `AnimatePresence` guard at line 95). -/
def MultiChat (isOpen : Bool) (selectedStreamerId : String) : List (String × Bool) :=
  if isOpen then multiChatViews selectedStreamerId else []

/-! ### Helper lemmas about the catalog and the render loop -/

theorem mem_catalog_iff {x : String} :
    x ∈ CATALOG_IDS ↔ x = "gabepeixe" ∨ x = "coringa" ∨ x = "brabox" := by
  simp [CATALOG_IDS, STREAMERS]

theorem find_catalog {x : String} (hx : x ∈ CATALOG_IDS) :
    ∃ s, STREAMERS.find? (fun t => t.id == x) = some s ∧ s.id = x := by
  rw [mem_catalog_iff] at hx
  rcases hx with rfl | rfl | rfl
  · exact ⟨_, rfl, rfl⟩
  · exact ⟨_, rfl, rfl⟩
  · exact ⟨_, rfl, rfl⟩

theorem renderSlot_none_of_contains (visible : List String) {x : String}
    (hx : x ∈ CATALOG_IDS) (hc : visible.contains x = true) :
    renderSlot visible none x = some x := by
  obtain ⟨s, hs, hid⟩ := find_catalog hx
  subst hid
  simp only [renderSlot, hs]
  simp at hc
  simp [hc]

theorem renderSlot_none_of_not_contains (visible : List String) {x : String}
    (hx : x ∈ CATALOG_IDS) (hc : visible.contains x = false) :
    renderSlot visible none x = none := by
  obtain ⟨s, hs, hid⟩ := find_catalog hx
  subst hid
  simp only [renderSlot, hs]
  simp at hc
  simp [hc]

theorem renderSlot_some_of_eq (visible : List String) {e : String}
    (he : e ∈ CATALOG_IDS) :
    renderSlot visible (some e) e = some e := by
  obtain ⟨s, hs, hid⟩ := find_catalog he
  subst hid
  simp only [renderSlot, hs]
  simp

theorem renderSlot_some_of_ne (visible : List String) (e : String) {x : String}
    (hx : x ∈ CATALOG_IDS) (hxe : x ≠ e) :
    renderSlot visible (some e) x = none := by
  obtain ⟨s, hs, hid⟩ := find_catalog hx
  subst hid
  simp only [renderSlot, hs]
  cases hc : visible.contains s.id <;> simp [hc, Ne.symm hxe]

theorem renderedSlots_expanded_none (order visible : List String)
    (h : ∀ x ∈ order, x ∈ CATALOG_IDS) :
    renderedSlots order visible none = order.filter (fun id => visible.contains id) := by
  induction order with
  | nil => rfl
  | cons a t ih =>
    have ha : a ∈ CATALOG_IDS := h a (List.mem_cons_self a t)
    have ht : ∀ x ∈ t, x ∈ CATALOG_IDS := fun x hx => h x (List.mem_cons_of_mem a hx)
    have ihe := ih ht
    simp only [renderedSlots, List.filterMap_cons] at ihe ⊢
    cases hc : visible.contains a
    · rw [renderSlot_none_of_not_contains visible ha hc, List.filter_cons_of_neg (by simpa using hc)]
      exact ihe
    · rw [renderSlot_none_of_contains visible ha hc, List.filter_cons_of_pos (by simpa using hc)]
      simpa using ihe

theorem renderedSlots_expanded_some (order visible : List String) (e : String)
    (h : ∀ x ∈ order, x ∈ CATALOG_IDS) :
    renderedSlots order visible (some e) = order.filter (fun x => x == e) := by
  induction order with
  | nil => rfl
  | cons a t ih =>
    have ha : a ∈ CATALOG_IDS := h a (List.mem_cons_self a t)
    have ht : ∀ x ∈ t, x ∈ CATALOG_IDS := fun x hx => h x (List.mem_cons_of_mem a hx)
    have ihe := ih ht
    simp only [renderedSlots, List.filterMap_cons] at ihe ⊢
    by_cases hae : a = e
    · subst hae
      rw [renderSlot_some_of_eq visible ha, List.filter_cons_of_pos (by simp)]
      simpa using ihe
    · rw [renderSlot_some_of_ne visible e ha hae, List.filter_cons_of_neg (by simp [hae])]
      exact ihe

theorem filter_eq_singleton_of_perm {order : List String} {e : String}
    (h : order.Perm CATALOG_IDS) (he : e ∈ CATALOG_IDS) :
    order.filter (fun x => x == e) = [e] := by
  rw [List.filter_beq]
  have hc : order.count e = 1 := by
    rw [h.count_eq]
    rw [mem_catalog_iff] at he
    rcases he with rfl | rfl | rfl <;> decide
  rw [hc]
  rfl

/-! ### Permutation helper lemmas for the reorder engine -/

theorem cons_set_perm {α : Type} (l : List α) :
    ∀ (i : Nat) (a : α) (h : i < l.length), List.Perm (l[i] :: l.set i a) (a :: l) := by
  induction l with
  | nil => intro i a h; simp at h
  | cons b t ih =>
    intro i a h
    cases i with
    | zero => exact List.Perm.swap a b t
    | succ m =>
      have hm : m < t.length := by simpa using h
      have h1 : List.Perm (t[m] :: b :: t.set m a) (b :: t[m] :: t.set m a) :=
        List.Perm.swap b (t[m]) (t.set m a)
      have h2 : List.Perm (b :: t[m] :: t.set m a) (b :: (a :: t)) :=
        (ih m a hm).cons b
      exact (h1.trans h2).trans (List.Perm.swap a b t)

theorem set_set_swap_perm {α : Type} (l : List α) (i j : Nat)
    (hi : i < l.length) (hj : j < l.length) :
    List.Perm ((l.set i (l[j])).set j (l[i])) l := by
  by_cases hij : i = j
  · subst hij
    rw [List.set_set]
    exact List.Perm.cons_inv (cons_set_perm l i (l[i]) hi)
  · have hj' : j < (l.set i (l[j])).length := by simpa using hj
    have h2 := cons_set_perm (l.set i (l[j])) j (l[i]) hj'
    have h3 : (l.set i (l[j]))[j] = l[j] := List.getElem_set_ne hij hj'
    have h4 := cons_set_perm l i (l[j]) hi
    rw [h3] at h2
    exact List.Perm.cons_inv (h2.trans h4)

theorem insertIdx_perm_cons {α : Type} (a : α) :
    ∀ (l : List α) (i : Nat), i ≤ l.length → List.Perm (l.insertIdx i a) (a :: l) := by
  intro l
  induction l with
  | nil =>
    intro i h
    cases i with
    | zero => exact List.Perm.refl _
    | succ m => simp at h
  | cons b t ih =>
    intro i h
    cases i with
    | zero => exact List.Perm.refl _
    | succ m =>
      have hm : m ≤ t.length := by simpa using h
      rw [List.insertIdx_succ_cons]
      exact ((ih m hm).cons b).trans (List.Perm.swap a b t)

theorem getElem_cons_eraseIdx_perm {α : Type} :
    ∀ (l : List α) (i : Nat) (h : i < l.length), List.Perm (l[i] :: l.eraseIdx i) l := by
  intro l
  induction l with
  | nil => intro i h; simp at h
  | cons b t ih =>
    intro i h
    cases i with
    | zero => exact List.Perm.refl _
    | succ m =>
      have hm : m < t.length := by simpa using h
      have h1 : List.Perm (t[m] :: b :: t.eraseIdx m) (b :: (t[m] :: t.eraseIdx m)) :=
        List.Perm.swap b (t[m]) (t.eraseIdx m)
      exact h1.trans ((ih m hm).cons b)

theorem splice_perm {α : Type} (l : List α) (i j : Nat) (a : α)
    (hi : i < l.length) (hj : j < l.length) (ha : a = l[i]) :
    List.Perm ((l.eraseIdx i).insertIdx j a) l := by
  subst ha
  have hlen : j ≤ (l.eraseIdx i).length := by
    rw [List.length_eraseIdx_of_lt hi]
    omega
  exact (insertIdx_perm_cons _ _ _ hlen).trans (getElem_cons_eraseIdx_perm l i hi)

/-! ### Claim theorems -/

/-- C1: for every order list that is a permutation of the catalog ids and every
visibility subset, the render loop emits exactly the ids of the order list that
lie in the visibility set, in order (no extra, no missing); when an expanded
slot id is set, exactly that one id is rendered. -/
theorem render_set_matches_order_visibility_and_expansion
    (order visible : List String) (h : order.Perm CATALOG_IDS) :
    renderedSlots order visible none = order.filter (fun id => visible.contains id) ∧
    ∀ e ∈ CATALOG_IDS, renderedSlots order visible (some e) = [e] := by
  have hmem : ∀ x ∈ order, x ∈ CATALOG_IDS := fun x hx => h.mem_iff.mp hx
  constructor
  · exact renderedSlots_expanded_none order visible hmem
  · intro e he
    rw [renderedSlots_expanded_some order visible e hmem]
    exact filter_eq_singleton_of_perm h he

theorem render_set_matches_order_visibility_and_expansion_witness :
    renderedSlots ["coringa", "gabepeixe", "brabox"] ["brabox", "coringa"] none
      = ["coringa", "brabox"] ∧
    renderedSlots ["coringa", "gabepeixe", "brabox"] ["brabox", "coringa"] (some "gabepeixe")
      = ["gabepeixe"] := by
  have h := render_set_matches_order_visibility_and_expansion
    ["coringa", "gabepeixe", "brabox"] ["brabox", "coringa"] (by decide)
  exact ⟨h.1.trans (by decide), h.2 "gabepeixe" (by decide)⟩

/-- C2: starting from any state with the chat open, applying a settings update
with `cinemaMode = true` closes the chat and turns cinema mode on; a subsequent
chat toggle (opening it) turns cinema mode off and opens the chat — the
bidirectional mutual-exclusion rule. -/
theorem cinema_chat_mutual_exclusion (st : ChatState) (h : st.isChatOpen = true) :
    (handleSettingsUpdate ⟨none, some true, none, none⟩ st).isChatOpen = false ∧
    (handleSettingsUpdate ⟨none, some true, none, none⟩ st).settings.cinemaMode = true ∧
    (toggleChat (handleSettingsUpdate ⟨none, some true, none, none⟩ st)).isChatOpen = true ∧
    (toggleChat (handleSettingsUpdate ⟨none, some true, none, none⟩ st)).settings.cinemaMode
      = false := by
  refine ⟨rfl, rfl, rfl, rfl⟩

theorem cinema_chat_mutual_exclusion_witness :
    (handleSettingsUpdate ⟨none, some true, none, none⟩
        ⟨true, ⟨false, false, true, 420⟩⟩).isChatOpen = false ∧
    (handleSettingsUpdate ⟨none, some true, none, none⟩
        ⟨true, ⟨false, false, true, 420⟩⟩).settings.cinemaMode = true ∧
    (toggleChat (handleSettingsUpdate ⟨none, some true, none, none⟩
        ⟨true, ⟨false, false, true, 420⟩⟩)).isChatOpen = true ∧
    (toggleChat (handleSettingsUpdate ⟨none, some true, none, none⟩
        ⟨true, ⟨false, false, true, 420⟩⟩)).settings.cinemaMode = false :=
  cinema_chat_mutual_exclusion ⟨true, ⟨false, false, true, 420⟩⟩ rfl

/-- C3 counterexample: a resize drag requesting 900 px leaves the committed
width at the previous 420 px — it is **not** clamped to the 800 px maximum as
the claim states (`onResize` is simply never called for out-of-range
requests). -/
theorem resize_request_900_keeps_previous_width :
    resize true false 420 900 = 420 ∧ resize true false 420 900 ≠ 800 := by
  decide

/-- C3 amended: a resize request is committed only when it is strictly between
300 and 800 px; a request at or beyond either bound (e.g. 900 px) commits
nothing, so the width stays at its previous value rather than being clamped to
the bound. -/
theorem resize_commits_only_strictly_in_bounds (prev w : Int) :
    (800 ≤ w → resize true false prev w = prev) ∧
    (w ≤ 300 → resize true false prev w = prev) ∧
    (300 < w → w < 800 → resize true false prev w = w) := by
  have houter : resize true false prev w = if 300 < w ∧ w < 800 then w else prev := by
    simp [resize]
  refine ⟨fun h => ?_, fun h => ?_, fun h1 h2 => ?_⟩
  · rw [houter, if_neg (by omega)]
  · rw [houter, if_neg (by omega)]
  · rw [houter, if_pos ⟨h1, h2⟩]

theorem resize_commits_only_strictly_in_bounds_witness :
    resize true false 420 900 = 420 ∧
    resize true false 420 250 = 420 ∧
    resize true false 420 700 = 700 :=
  ⟨(resize_commits_only_strictly_in_bounds 420 900).1 (by decide),
   (resize_commits_only_strictly_in_bounds 420 250).2.1 (by decide),
   (resize_commits_only_strictly_in_bounds 420 700).2.2 (by decide) (by decide)⟩

/-- C4: a completed drag `begin(i); hover(j); drop()` with valid indices
produces exactly the splice-remove-and-reinsert of the order list when
`i ≠ j`, and leaves the list unchanged when `i = j`. -/
theorem drag_drop_performs_splice (order : List String) (i j : Nat)
    (hi : i < order.length) (hj : j < order.length) :
    (i ≠ j → (onDrop (onDragEnter (onDragStart (initialDragState order) i) j)).streamerOrder
        = spliceRemoveReinsert order i j) ∧
    (i = j → (onDrop (onDragEnter (onDragStart (initialDragState order) i) j)).streamerOrder
        = order) := by
  have hstate : onDragEnter (onDragStart (initialDragState order) i) j
      = { isDragging := true, dragItem := some i, dragOverItem := some j,
          streamerOrder := order } := rfl
  rw [hstate]
  constructor
  · intro hij
    simp only [onDrop, spliceRemoveReinsert, if_pos hij,
      List.getElem?_eq_getElem hi, List.getD_eq_getElem order "" hi]
  · intro hij
    simp [onDrop, hij]

theorem drag_drop_performs_splice_witness :
    (onDrop (onDragEnter (onDragStart
        (initialDragState ["gabepeixe", "coringa", "brabox"]) 0) 2)).streamerOrder
      = ["coringa", "brabox", "gabepeixe"] ∧
    (onDrop (onDragEnter (onDragStart
        (initialDragState ["gabepeixe", "coringa", "brabox"]) 1) 1)).streamerOrder
      = ["gabepeixe", "coringa", "brabox"] := by
  have h1 := drag_drop_performs_splice ["gabepeixe", "coringa", "brabox"] 0 2
    (by decide) (by decide)
  have h2 := drag_drop_performs_splice ["gabepeixe", "coringa", "brabox"] 1 1
    (by decide) (by decide)
  exact ⟨(h1.1 (by decide)).trans (by decide), h2.2 rfl⟩

/-- C5: every mutation of the order list preserves the invariant that it is a
permutation of the catalog id set: the discrete up/down move (for any id and
direction, including boundary and unknown-id no-ops), the drop handler (for
any ref contents whose set indices are in range), and the order reset. -/
theorem order_mutations_preserve_catalog_permutation
    (order : List String) (h : order.Perm CATALOG_IDS) :
    (∀ (id : String) (dir : MoveDirection),
        (handleMoveStreamer order id dir).Perm CATALOG_IDS) ∧
    (∀ st : DragState, st.streamerOrder = order →
        (∀ i ∈ st.dragItem, i < order.length) →
        (∀ j ∈ st.dragOverItem, j < order.length) →
        ((onDrop st).streamerOrder).Perm CATALOG_IDS) ∧
    resetOrder.Perm CATALOG_IDS := by
  refine ⟨?_, ?_, ?_⟩
  · intro id dir
    unfold handleMoveStreamer
    split
    · exact h
    · rename_i currentIndex heq
      have hcur : currentIndex < order.length :=
        (List.findIdx?_eq_some_iff_findIdx_eq.mp heq).1
      dsimp only
      generalize (if dir = MoveDirection.up then (currentIndex : Int) - 1
        else (currentIndex : Int) + 1) = t
      split
      · exact h
      · rename_i hguard
        have hb : 0 ≤ t ∧ t < (order.length : Int) := by omega
        have ht : t.toNat < order.length := by omega
        rw [List.getD_eq_getElem order "" ht, List.getD_eq_getElem order "" hcur]
        exact (set_set_swap_perm order currentIndex t.toNat hcur ht).trans h
  · intro st hord hi hj
    obtain ⟨isD, dI, dO, so⟩ := st
    simp only at hord hi hj
    subst hord
    simp only [onDrop]
    cases dI with
    | none => exact h
    | some i =>
      cases dO with
      | none => exact h
      | some j =>
        dsimp only
        by_cases hij : i = j
        · rw [if_neg (not_not_intro hij)]
          exact h
        · have hi' : i < so.length := hi i rfl
          have hj' : j < so.length := hj j rfl
          rw [if_pos hij, List.getElem?_eq_getElem hi']
          exact (splice_perm so i j _ hi' hj' rfl).trans h
  · exact List.Perm.refl _

theorem order_mutations_preserve_catalog_permutation_witness :
    (handleMoveStreamer ["brabox", "gabepeixe", "coringa"] "coringa"
        MoveDirection.up).Perm CATALOG_IDS ∧
    ((onDrop ⟨true, some 2, some 0, ["brabox", "gabepeixe", "coringa"]⟩).streamerOrder).Perm
      CATALOG_IDS ∧
    resetOrder.Perm CATALOG_IDS := by
  have h := order_mutations_preserve_catalog_permutation
    ["brabox", "gabepeixe", "coringa"] (by decide)
  refine ⟨h.1 "coringa" MoveDirection.up, ?_, h.2.2⟩
  exact h.2.1 _ rfl (by intro i hi; simp at hi; subst hi; decide)
    (by intro j hj; simp at hj; subst hj; decide)

/-- C6: with the three catalog streamers visible, grid mode and no expansion,
all three slots render in order, the container directive is the 2-column grid
with 60%/40% rows, and the visible indices 0/1/2 receive the hero
(span-both-top-columns), bottom-left and bottom-right classes respectively. -/
theorem grid_mode_hero_layout_scenario :
    renderedSlots CATALOG_IDS CATALOG_IDS none = CATALOG_IDS ∧
    getContainerGridClass false LayoutMode.grid none 3
      = "grid grid-cols-2 grid-rows-[60%_40%]" ∧
    getGridClasses false none LayoutMode.grid 0 3
      = "col-span-2 row-span-1 border-b border-white/5" ∧
    getGridClasses false none LayoutMode.grid 1 3
      = "col-span-1 row-span-1 border-r border-white/5" ∧
    getGridClasses false none LayoutMode.grid 2 3
      = "col-span-1 row-span-1" := by
  refine ⟨by decide, rfl, rfl, rfl, rfl⟩

/-- C7 counterexample: with three visible slots in grid mode on a *mobile*
viewport the container directive is still the 2-column 60/40 grid — not the
equal-share linear split the claim requires — because neither layout function
consults the viewport flag. -/
theorem mobile_grid_mode_still_grid :
    getContainerGridClass true LayoutMode.grid none 3
      = "grid grid-cols-2 grid-rows-[60%_40%]" ∧
    getContainerGridClass true LayoutMode.grid none 3 ≠ "flex flex-col md:flex-row" ∧
    getGridClasses true none LayoutMode.grid 0 3
      = "col-span-2 row-span-1 border-b border-white/5" := by
  refine ⟨rfl, by decide, rfl⟩

/-- C7 amended: slot and container placement are independent of the viewport
flag; for n ≥ 3 the grid mode produces the 2×2 hero grid on every viewport
(mobile included), and the equal-share linear split container is produced
exactly in columns mode (its row/column direction follows the viewport only
through the responsive CSS prefixes inside the emitted class string). -/
theorem layout_independent_of_viewport
    (isMobile : Bool) (mode : LayoutMode) (e : Option String) (idx : Int) (n : Nat) :
    getContainerGridClass isMobile mode e n = getContainerGridClass false mode e n ∧
    getGridClasses isMobile e mode idx n = getGridClasses false e mode idx n ∧
    (mode = LayoutMode.columns →
      getContainerGridClass isMobile mode e n = "flex flex-col md:flex-row") ∧
    (mode = LayoutMode.grid → e = none → 3 ≤ n →
      getContainerGridClass isMobile mode e n = "grid grid-cols-2 grid-rows-[60%_40%]") := by
  refine ⟨rfl, rfl, fun hm => ?_, fun hm he hn => ?_⟩
  · subst hm
    simp [getContainerGridClass]
  · subst hm
    subst he
    simp [getContainerGridClass, hn]

theorem layout_independent_of_viewport_witness :
    getContainerGridClass true LayoutMode.columns none 3 = "flex flex-col md:flex-row" ∧
    getContainerGridClass true LayoutMode.grid none 4
      = "grid grid-cols-2 grid-rows-[60%_40%]" :=
  ⟨(layout_independent_of_viewport true LayoutMode.columns none 0 3).2.2.1 rfl,
   (layout_independent_of_viewport true LayoutMode.grid none 0 4).2.2.2 rfl rfl
     (by decide)⟩

/-- C8 counterexample: an interrupted drag — `onDragStart` at index 0 followed
by a browser-level cancellation, for which the app registers no handler — does
**not** return the drag state to its cleared form: the dragging flag stays
true and the source ref stays set. -/
theorem interrupted_drag_leaves_state_set :
    (onDragCancel (onDragStart (initialDragState CATALOG_IDS) 0)).isDragging = true ∧
    (onDragCancel (onDragStart (initialDragState CATALOG_IDS) 0)).dragItem = some 0 :=
  ⟨rfl, rfl⟩

/-- C8 amended: the drop handler — the only exit of a drag sequence that runs
any code — unconditionally clears the dragging flag and both index refs; an
interrupted or cancelled drag runs no handler at all, leaving the entire state
(the stuck flag and refs included, and in particular the unchanged order
list) exactly as it was. -/
theorem drag_state_cleared_only_on_drop (st : DragState) :
    (onDrop st).isDragging = false ∧
    (onDrop st).dragItem = none ∧
    (onDrop st).dragOverItem = none ∧
    onDragCancel st = st :=
  ⟨rfl, rfl, rfl, rfl⟩

/-- C9: while the chat panel is open it mounts the mix view plus one
individual chat view per catalog streamer, whatever tab is selected; the
mounted view set is independent of the selected tab (selection only moves the
display flags). -/
theorem chat_views_always_mounted (isOpen : Bool) (sel sel' : String)
    (h : isOpen = true) :
    (MultiChat isOpen sel).map Prod.fst
      = "mix" :: STREAMERS.map (fun s => "tab-" ++ s.id) ∧
    (MultiChat isOpen sel).map Prod.fst = (MultiChat isOpen sel').map Prod.fst := by
  subst h
  exact ⟨rfl, rfl⟩

theorem chat_views_always_mounted_witness :
    (MultiChat true "coringa").map Prod.fst
      = "mix" :: STREAMERS.map (fun s => "tab-" ++ s.id) ∧
    (MultiChat true "coringa").map Prod.fst = (MultiChat true "all").map Prod.fst :=
  chat_views_always_mounted true "coringa" "all" rfl

/-- C10: when the expanded id names a catalog streamer that is *not* in the
visibility set, the render loop still emits exactly that slot (force show) and
assigns it the full-viewport class; every other streamer, visible or not, is
omitted from the render set. -/
theorem expanded_hidden_slot_forced_fullscreen
    (order visible : List String) (e : String) (mode : LayoutMode) (isMobile : Bool)
    (idx : Int) (n : Nat)
    (horder : order.Perm CATALOG_IDS) (he : e ∈ CATALOG_IDS)
    (hhidden : visible.contains e = false) :
    renderedSlots order visible (some e) = [e] ∧
    getGridClasses isMobile (some e) mode idx n = "flex-1 w-full h-full" := by
  constructor
  · rw [renderedSlots_expanded_some order visible e (fun x hx => horder.mem_iff.mp hx)]
    exact filter_eq_singleton_of_perm horder he
  · simp [getGridClasses]

theorem expanded_hidden_slot_forced_fullscreen_witness :
    renderedSlots CATALOG_IDS ["gabepeixe", "coringa"] (some "brabox") = ["brabox"] ∧
    getGridClasses false (some "brabox") LayoutMode.columns (-1) 2 = "flex-1 w-full h-full" :=
  expanded_hidden_slot_forced_fullscreen CATALOG_IDS ["gabepeixe", "coringa"] "brabox"
    LayoutMode.columns false (-1) 2 (by decide) (by decide) (by decide)
